import Mathlib

/-!
Verification of the `styles` attribute proc-macro in `src/lib.rs` of the
leptos_styles repository.

The macro rewrites a Leptos component function: it derives a unique id
from the name stem of the style file (djb2 hash of the UTF-8 bytes of the
stem, reduced mod 10000 and appended to the stem), and replaces the
function body with a block that binds the original view and wraps it in a
style element plus a div carrying the derived id.

The embedding translates each piece of the Rust source:
* `utf8Bytes` / `strBytes` — Rust `str::bytes` (UTF-8 encoding of chars);
* `splitOnSlash`, `fileNameChars`, `fileStemChars`, `filenameOf` — the
  semantics of `std::path::Path::file_stem` on Unix path strings together
  with the `unwrap_or` fallback (lib.rs lines 71–74);
* `hashStep`, `djb2` — the wrapping-u32 hash loop (lines 76–79);
* `unique_id` — `format!` of stem and `hash % 10000` (line 80);
* `parseLitStr`, `newBodyInner`, `newBodyTokens`, `parse2Block`,
  `finishRewrite`, `styles` — the token-level pipeline (lines 66–106);
* `styleText`, `rewrittenViewNodes`, `rewrittenBody` — a semantic model
  of the code generated by the quote block (lines 84–94).
-/

namespace LeptosStyles

/-- UTF-8 encoding of a character, as the list of its byte values.
Mirrors what Rust `str::bytes` yields per char. -/
def utf8Bytes (c : Char) : List Nat :=
  let n := c.toNat
  if n < 0x80 then [n]
  else if n < 0x800 then
    [0xC0 ||| (n >>> 6), 0x80 ||| (n &&& 0x3F)]
  else if n < 0x10000 then
    [0xE0 ||| (n >>> 12), 0x80 ||| ((n >>> 6) &&& 0x3F), 0x80 ||| (n &&& 0x3F)]
  else
    [0xF0 ||| (n >>> 18), 0x80 ||| ((n >>> 12) &&& 0x3F),
     0x80 ||| ((n >>> 6) &&& 0x3F), 0x80 ||| (n &&& 0x3F)]

/-- The UTF-8 byte sequence of a string (Rust `str::bytes`). -/
def strBytes (s : String) : List Nat :=
  (s.data.map utf8Bytes).flatten

/-- Split a character list at every slash, keeping empty segments.
Models the raw segmentation of a Unix path string. -/
def splitOnSlash : List Char → List (List Char)
  | [] => [[]]
  | c :: rest =>
    if c = '/' then [] :: splitOnSlash rest
    else
      match splitOnSlash rest with
      | [] => [[c]]
      | s :: ss => (c :: s) :: ss

/-- Model of `std::path::Path::file_name` on a Unix path string: the final
path component if it is a normal component.  Empty segments and
current-directory segments are normalized away; a path whose final
component is the parent-directory marker, or that has no component at all,
has no file name. -/
def fileNameChars (p : List Char) : Option (List Char) :=
  let segs := (splitOnSlash p).filter (fun s => s ≠ [] ∧ s ≠ ['.'])
  match segs.getLast? with
  | none => none
  | some s => if s = ['.', '.'] then none else some s

/-- Index of the last dot in a character list, if any. -/
def lastDotIdx : List Char → Option Nat
  | [] => none
  | c :: rest =>
    match lastDotIdx rest with
    | some i => some (i + 1)
    | none => if c = '.' then some 0 else none

/-- The stem of a file name, following the Rust std helper
split_file_at_dot: the two-dot name is its own stem; a name with no dot,
or whose last dot is the leading character, is its own stem; otherwise the
portion before the final dot. -/
def fileStemChars (name : List Char) : List Char :=
  if name = ['.', '.'] then name
  else
    match lastDotIdx name with
    | none => name
    | some 0 => name
    | some i => name.take i

/-- Lines 71–74 of lib.rs: `Path::new(&path_str).file_stem()
.and_then(|name| name.to_str()).unwrap_or("component")`.  In this string
model the `to_str` conversion always succeeds. -/
def filenameOf (path_str : String) : String :=
  match fileNameChars path_str.data with
  | none => "component"
  | some n => String.mk (fileStemChars n)

/-- One step of the hash loop, line 78 of lib.rs:
`hash = hash.wrapping_mul(33).wrapping_add(byte as u32)`, with u32
wraparound made explicit as reduction mod 2 ^ 32. -/
def hashStep (h b : Nat) : Nat :=
  (h * 33 + b) % 2 ^ 32

/-- Lines 76–79 of lib.rs: the djb2 loop over the bytes of the stem,
starting from 5381. -/
def djb2 (s : String) : Nat :=
  (strBytes s).foldl hashStep 5381

/-- Line 80 of lib.rs: `format!` concatenating the stem and
`hash % 10000` (decimal rendering of a Nat, no padding). -/
def unique_id (path_str : String) : String :=
  let filename := filenameOf path_str
  filename ++ toString (djb2 filename % 10000)

/-- Modelled from the wording of the spec, section 4.1, for comparison
with `djb2`: the recurrence h 0 = 5381, h i = h (i-1) * 33 + byte i
(mod 2 ^ 32), processed here from the last byte inward on the reversed
list. -/
def djb2SpecRevAux : List Nat → Nat
  | [] => 5381
  | b :: rest => (djb2SpecRevAux rest * 33 + b) % 2 ^ 32

/-- Modelled from the wording of the spec, section 4.1: the final value
h n of the recurrence over the byte list. -/
def djb2Spec (bytes : List Nat) : Nat :=
  djb2SpecRevAux bytes.reverse

/-- The group delimiters that occur in the token streams of the macro. -/
inductive Delim where
  | paren
  | brace

/-- A proc-macro token tree: identifiers, punctuation, string literals
and delimited groups.  This is the representation the input and output
streams of the macro live in. -/
inductive Tok where
  | ident (s : String) : Tok
  | punct (s : String) : Tok
  | strLit (s : String) : Tok
  | group (d : Delim) (inner : List Tok) : Tok

/-- A parse diagnostic, as produced by syn and turned into a compile
error by `to_compile_error` (lib.rs line 98). -/
structure SynError where
  msg : String

/-- A `syn::Block`, kept at the token level: the token trees between the
braces of the block. -/
def Blk : Type := List Tok

/-- A `syn::Signature`: the parts of the function header that the macro
never touches (lib.rs only ever reassigns `func.block`). -/
structure Signature where
  name : String
  params : List String
  output : String

/-- A `syn::ItemFn`: attributes, visibility, signature, body block. -/
structure ItemFn where
  attrs : List String
  vis : String
  sig : Signature
  block : Blk

/-- The result of the attribute macro: either the rewritten function
item, or a compile-error token stream (no item is emitted then). -/
inductive MacroOutput where
  | emitted (f : ItemFn) : MacroOutput
  | compileError (e : SynError) : MacroOutput

/-- Line 67 of lib.rs: `parse_macro_input!(attr as LitStr)`.  Succeeds
exactly when the attribute argument is a single string literal; a missing
or non-string-literal argument yields a parse error, which
`parse_macro_input!` returns as a compile error at the invocation site. -/
def parseLitStr : List Tok → Except SynError String
  | [Tok.strLit s] => Except.ok s
  | [] => Except.error ⟨"unexpected end of input, expected string literal"⟩
  | _ => Except.error ⟨"expected string literal"⟩

/-- The token trees between the braces of the quote block of lib.rs lines
84–94: the let-binding of the original body as original_view, followed by
the view invocation containing the style element and the id-carrying
div. -/
def newBodyInner (original_body : Blk) (uid path_str : String) : List Tok :=
  [Tok.ident "let", Tok.ident "original_view", Tok.punct "=",
   Tok.group Delim.brace original_body, Tok.punct ";",
   Tok.ident "leptos", Tok.punct "::", Tok.ident "view", Tok.punct "!",
   Tok.group Delim.brace
     ([Tok.punct "<", Tok.ident "style", Tok.punct ">",
       Tok.group Delim.brace
         [Tok.ident "concat", Tok.punct "!",
          Tok.group Delim.paren
            [Tok.strLit "#", Tok.punct ",", Tok.strLit uid, Tok.punct ",",
             Tok.strLit " \x7b ", Tok.punct ",",
             Tok.ident "include_str", Tok.punct "!",
             Tok.group Delim.paren [Tok.strLit path_str], Tok.punct ",",
             Tok.strLit " \x7d"]],
       Tok.punct "<", Tok.punct "/", Tok.ident "style", Tok.punct ">",
       Tok.punct "<", Tok.ident "div", Tok.ident "id", Tok.punct "=",
       Tok.strLit uid, Tok.punct ">",
       Tok.group Delim.brace [Tok.ident "original_view"],
       Tok.punct "<", Tok.punct "/", Tok.ident "div", Tok.punct ">"])]

/-- The full quote output of lib.rs lines 84–94: a single braced block
containing `newBodyInner`. -/
def newBodyTokens (original_body : Blk) (uid path_str : String) : List Tok :=
  [Tok.group Delim.brace (newBodyInner original_body uid path_str)]

/-- Model of `syn::parse2` at the `syn::Block` type (lib.rs line 96): a
token stream parses as a block exactly when it is a single
brace-delimited group; anything else is a parse error. -/
def parse2Block : List Tok → Except SynError Blk
  | [Tok.group Delim.brace inner] => Except.ok inner
  | _ => Except.error ⟨"expected curly braces"⟩

/-- Lines 96–105 of lib.rs: parse the synthesized body; on success
install it as the block of the function and emit the function, on failure
return the parse diagnostic as a compile error (no item is emitted). -/
def finishRewrite (func : ItemFn) (new_body : List Tok) : MacroOutput :=
  match parse2Block new_body with
  | Except.ok block => MacroOutput.emitted { func with block := block }
  | Except.error e => MacroOutput.compileError e

/-- The whole `styles` attribute macro (lib.rs lines 66–106), with the
function item already parsed.  Note that the macro itself reads no file:
the style file enters the output only as an include_str token inside the
generated body, so an argument error aborts before any file is
referenced. -/
def styles (attr : List Tok) (func : ItemFn) : MacroOutput :=
  match parseLitStr attr with
  | Except.error e => MacroOutput.compileError e
  | Except.ok path_str =>
      finishRewrite func (newBodyTokens func.block (unique_id path_str) path_str)

/-- The Rust `concat!` macro: string concatenation of the listed parts. -/
def concatParts (parts : List String) : String :=
  parts.foldl (fun a b => a ++ b) ""

/-- Line 88 of lib.rs: the `concat!` of the hash sign, the unique id, the
opening-brace separator, the raw file contents produced by the
include_str invocation, and the closing-brace suffix. -/
def styleText (uid contents : String) : String :=
  concatParts ["#", uid, " \x7b ", contents, " \x7d"]

/-- A rendered view node: a style element with literal text, an element
with an id attribute and children, or opaque content (the original view).
Semantic model of what the generated view block renders. -/
inductive View (α : Type) where
  | style (text : String) : View α
  | div (id : String) (children : List (View α)) : View α
  | content (a : α) : View α

/-- The node list rendered by the generated view block (lib.rs lines
87–92): the style element first, then the div carrying the unique id with
the bound original view as its content. -/
def rewrittenViewNodes {α : Type} (uid css : String) (original_view : α) :
    List (View α) :=
  [View.style (styleText uid css), View.div uid [View.content original_view]]

/-- Semantic model of the generated body block (lib.rs lines 84–94):
first evaluate the original body (a state transformer producing the
original view), bind its result as original_view, then render the style
element and the wrapping div around it.  `css` stands for the file
contents that the include_str invocation resolves to. -/
def rewrittenBody {σ α : Type} (uid css : String) (origBody : σ → α × σ)
    (s : σ) : List (View α) × σ :=
  let original_view := origBody s
  (rewrittenViewNodes uid css original_view.1, original_view.2)

/-- A concrete component function, used to instantiate theorems with
hypotheses. -/
def exampleFn : ItemFn :=
  { attrs := ["component"], vis := "pub",
    sig := { name := "MyComponent", params := [], output := "impl IntoView" },
    block := [Tok.ident "body"] }

/-- A concrete well-formed attribute argument: the single string literal
naming a style path. -/
def exampleAttr : List Tok :=
  [Tok.strLit "card.css"]

/-- The item that `styles` emits for `exampleAttr` and `exampleFn`. -/
def exampleOut : ItemFn :=
  { exampleFn with
      block := newBodyInner exampleFn.block (unique_id "card.css") "card.css" }

theorem djb2Spec_eq_foldl (bytes : List Nat) :
    djb2Spec bytes = bytes.foldl hashStep 5381 := by
  induction bytes using List.reverseRecOn with
  | nil => rfl
  | append_singleton l b ih =>
      simp [djb2Spec, djb2SpecRevAux, List.foldl_append] at *
      rw [ih]
      rfl

theorem repr_le_four (m : Nat) (h : m < 10000) : (Nat.repr m).length ≤ 4 :=
  Nat.repr_length m 4 (by norm_num) (by omega)

theorem one_le_repr_length (n : Nat) : 1 ≤ (Nat.repr n).length := by
  rw [Nat.repr, List.length_asString]
  unfold Nat.toDigits
  unfold Nat.toDigitsCore
  by_cases h : n / 10 = 0
  · simp [h]
  · simp only [h, if_false]
    rw [Nat.toDigitsCore_lens_eq]
    omega

/-- C1: for every path whose extracted stem is non-empty, the derived
identifier is the stem followed by the unpadded decimal rendering of
H mod 10000, where H is the djb2 recurrence (seed 5381, multiplier 33,
wraparound mod 2 ^ 32) over the UTF-8 bytes of the stem.  `djb2Spec` is
the recurrence as the spec words it; `unique_id` is the code. -/
theorem identifier_eq_stem_append_djb2 (p : String)
    (_h : filenameOf p ≠ "") :
    unique_id p
      = filenameOf p ++ Nat.repr (djb2Spec (strBytes (filenameOf p)) % 10000) := by
  rw [djb2Spec_eq_foldl]
  rfl

/-- Witness for C1 at the path src/my_component.css. -/
theorem identifier_eq_stem_append_djb2_witness :
    filenameOf "src/my_component.css" ≠ ""
    ∧ unique_id "src/my_component.css"
        = filenameOf "src/my_component.css"
          ++ Nat.repr (djb2Spec (strBytes (filenameOf "src/my_component.css")) % 10000) :=
  ⟨by decide, identifier_eq_stem_append_djb2 "src/my_component.css" (by decide)⟩

/-- C2: the rewritten body first evaluates the original body and binds
its result, then yields, in order, a style element whose text is the
inlined style text, followed by a div whose id is the derived identifier
and whose content is the bound result. -/
theorem rewritten_body_structure {σ α : Type} (B : σ → α × σ)
    (uid css : String) (s : σ) :
    rewrittenBody uid css B s
      = ([View.style (styleText uid css),
          View.div uid [View.content (B s).1]], (B s).2) :=
  rfl

/-- C3: for every identifier and every file contents (empty contents and
contents containing a closing brace included, since the statement is
fully universal), the generated style text is exactly the hash sign, the
identifier, the spaced opening brace, the contents, and the spaced
closing brace, concatenated. -/
theorem style_text_exact_shape (uid contents : String) :
    styleText uid contents
      = "#" ++ uid ++ " \x7b " ++ contents ++ " \x7d" := by
  simp [styleText, concatParts, String.append_assoc]

/-- C4 counterexample: the empty path and the root path do fall back to
component, but the extension-only file name .css does not — its stem is
the whole name, contradicting the claim that extension-only names use the
fallback. -/
theorem stem_fallback_counterexample :
    filenameOf "" = "component"
    ∧ filenameOf "/" = "component"
    ∧ filenameOf ".css" = ".css"
    ∧ filenameOf ".css" ≠ "component" := by
  refine ⟨by decide, by decide, by decide, by decide⟩

/-- C4 amended: the fallback to component happens exactly when no file
name can be extracted (no final normal path segment, as for the empty
path, the root path, the current-directory path, or a path ending in the
parent-directory marker); an extension-only name such as .css is its own
stem and does not fall back. -/
theorem stem_fallback_amended :
    (∀ p : String, fileNameChars p.data = none → filenameOf p = "component")
    ∧ filenameOf ".css" = ".css" :=
  ⟨fun _ h => by simp [filenameOf, h], by decide⟩

/-- Witness for C4 amended at the root path. -/
theorem stem_fallback_amended_witness : filenameOf "/" = "component" :=
  stem_fallback_amended.1 "/" (by decide)

/-- C5 counterexample: for the path dyn.css the derived identifier is
dyn0 (the hash of dyn reduced mod 10000 is 0), so no 4-digit suffix
exists: the suffix is a single digit. -/
theorem suffix_four_digits_counterexample :
    ¬ ∃ su : String,
        unique_id "dyn.css" = filenameOf "dyn.css" ++ su ∧ su.length = 4 := by
  rintro ⟨su, h, hl⟩
  have h1 : unique_id "dyn.css" = "dyn0" := by decide
  have h2 : filenameOf "dyn.css" = "dyn" := by decide
  rw [h1, h2] at h
  have hlen := congrArg String.length h
  have e1 : ("dyn0" : String).length = 4 := by decide
  have e2 : ("dyn" : String).length = 3 := by decide
  rw [e1, String.length_append, e2, hl] at hlen
  omega

/-- C5 amended: the derived identifier is the stem concatenated with the
unpadded decimal rendering of the hash reduced mod 10000, a suffix of at
least one and at most four decimal digits. -/
theorem suffix_bounded_amended (p : String) :
    unique_id p = filenameOf p ++ toString (djb2 (filenameOf p) % 10000)
    ∧ 1 ≤ (toString (djb2 (filenameOf p) % 10000)).length
    ∧ (toString (djb2 (filenameOf p) % 10000)).length ≤ 4 := by
  refine ⟨rfl, one_le_repr_length _, repr_le_four _ (Nat.mod_lt _ (by norm_num))⟩

/-- C6: identifier derivation is a pure function of the stem: deriving
twice yields the same output, and any two paths with equal stems yield
equal identifiers. -/
theorem stem_determines_identifier (p1 p2 : String)
    (h : filenameOf p1 = filenameOf p2) :
    unique_id p1 = unique_id p1 ∧ unique_id p1 = unique_id p2 := by
  exact ⟨rfl, by simp only [unique_id, h]⟩

/-- Witness for C6 at the paths a/card.css and b/card.css. -/
theorem stem_determines_identifier_witness :
    filenameOf "a/card.css" = filenameOf "b/card.css"
    ∧ (unique_id "a/card.css" = unique_id "a/card.css"
        ∧ unique_id "a/card.css" = unique_id "b/card.css") :=
  ⟨by decide, stem_determines_identifier "a/card.css" "b/card.css" (by decide)⟩

/-- C7: whenever the macro emits a rewritten item, that item has exactly
the attributes, visibility and signature (name, parameters, return type)
of the input item — only the block is replaced. -/
theorem signature_preserved (attr : List Tok) (func f : ItemFn)
    (h : styles attr func = MacroOutput.emitted f) :
    f.attrs = func.attrs ∧ f.vis = func.vis ∧ f.sig = func.sig := by
  unfold styles at h
  cases hp : parseLitStr attr with
  | error e =>
      rw [hp] at h
      simp at h
  | ok path_str =>
      rw [hp] at h
      simp only [finishRewrite, newBodyTokens, parse2Block] at h
      injection h with h2
      subst h2
      exact ⟨rfl, rfl, rfl⟩

/-- Witness for C7: a concrete emission whose header fields are
preserved. -/
theorem signature_preserved_witness :
    exampleOut.attrs = exampleFn.attrs
    ∧ exampleOut.vis = exampleFn.vis
    ∧ exampleOut.sig = exampleFn.sig :=
  signature_preserved exampleAttr exampleFn exampleOut rfl

/-- C8: if the synthesized replacement body fails to parse as a block,
the final rewriting stage returns exactly the parse diagnostic as a
compile error, so no rewritten item is produced.  (On every stream the
quote block of the macro actually synthesizes, parsing succeeds; the
theorem quantifies over the seam carrying the synthesized stream,
lib.rs lines 96–105.) -/
theorem synth_parse_failure_aborts (func : ItemFn) (new_body : List Tok)
    (e : SynError) (h : parse2Block new_body = Except.error e) :
    finishRewrite func new_body = MacroOutput.compileError e := by
  unfold finishRewrite
  rw [h]

/-- Witness for C8 at an unparseable (empty) token stream. -/
theorem synth_parse_failure_aborts_witness :
    finishRewrite exampleFn [] = MacroOutput.compileError ⟨"expected curly braces"⟩ :=
  synth_parse_failure_aborts exampleFn [] ⟨"expected curly braces"⟩ rfl

/-- C9: if the attribute argument is missing or not a string literal, the
macro returns exactly the argument parse error as a compile error — no
item is emitted, and no file reference is produced (the style file enters
the output only inside an emitted item). -/
theorem missing_argument_aborts (attr : List Tok) (func : ItemFn)
    (e : SynError) (h : parseLitStr attr = Except.error e) :
    styles attr func = MacroOutput.compileError e := by
  unfold styles
  rw [h]

/-- Witness for C9 at a missing attribute argument. -/
theorem missing_argument_aborts_witness :
    styles [] exampleFn
      = MacroOutput.compileError ⟨"unexpected end of input, expected string literal"⟩ :=
  missing_argument_aborts [] exampleFn
    ⟨"unexpected end of input, expected string literal"⟩ rfl

/-- C10: identifier derivation is not injective across stems: the paths
a/der.css and b/der93.css have distinct stems der and der93, yet both
derive the identifier der9344, so equal identifiers do not imply equal
style files. -/
theorem identifier_collision :
    filenameOf "a/der.css" = "der"
    ∧ filenameOf "b/der93.css" = "der93"
    ∧ ("der" : String) ≠ "der93"
    ∧ unique_id "a/der.css" = unique_id "b/der93.css" := by
  refine ⟨by decide, by decide, by decide, by decide⟩

end LeptosStyles
